import Mathlib

/-!
Verification of the SigV4 presigning interceptor and runtime plugin
(`aws/rust-runtime/aws-inlineable/src/presigning_interceptors.rs`), as a
shallow embedding in Lean 4.  The interceptor hooks and the plugin assembly
are translated from the Rust source; the collaborating types that live in
other crates of the repository (config bag, signing config, time source,
retry strategy, header-serialization settings, disabled-interceptor markers)
are modelled from the specification of their interfaces.
-/

/-- Modelled from the spec: a duration, abstract non-negative count (the
`expires` field of a presigning config; spec invariant `expires > 0`). -/
abbrev Duration := Nat

/-- Modelled from the spec: a point in time (real clock reading or
`start_time` anchor). -/
abbrev Time := Nat

/-- Modelled from the spec: immutable presigning configuration holding
`start_time` and `expires` (crate-local `presigning.rs`, not under `src/`). -/
structure PresigningConfig where
  start_time : Time
  expires : Duration
deriving DecidableEq, Repr

/-- Modelled from the spec: the tagged payload-description union
(`aws_sigv4::http_request::SignableBody`): unsigned marker, in-memory bytes,
streaming/unsized, precomputed digest. -/
inductive SignableBody where
  | Bytes (data : List Nat)
  | UnsignedPayload
  | StreamingUnsignedPayloadTrailer
  | Precomputed (digest : String)
deriving DecidableEq, Repr

/-- Modelled from the spec: signature placement mode — header-based versus
query-parameter-based (`aws_runtime::auth::sigv4::HttpSignatureType`). -/
inductive HttpSignatureType where
  | HttpRequestHeaders
  | HttpRequestQueryParams
deriving DecidableEq, Repr

/-- Modelled from the spec: the signing options inside a
`SigV4OperationSigningConfig`: expiry duration, placement mode, optional
payload override, and the remaining upstream-populated fields, abstracted
into `other_field` (the spec's `other_field: X`). -/
structure SigningOptions where
  expires_in : Option Duration
  signature_type : HttpSignatureType
  payload_override : Option SignableBody
  other_field : Nat
deriving DecidableEq, Repr

/-- Modelled from the spec: the signing-operation config entry; fields beyond
`signing_options` that this core never touches are abstracted into
`other_config_field`. -/
structure SigV4OperationSigningConfig where
  signing_options : SigningOptions
  other_config_field : Nat
deriving DecidableEq, Repr

/-- Modelled from the spec: flags controlling whether default
`Content-Length` / `Content-Type` headers are emitted
(`serialization_settings.rs`, not under `src/`). -/
structure HeaderSerializationSettings where
  omit_default_content_length : Bool
  omit_default_content_type : Bool
deriving DecidableEq, Repr

/-- Modelled from the spec: `HeaderSerializationSettings::new()` — by default
neither default header is omitted. -/
def HeaderSerializationSettings.new : HeaderSerializationSettings :=
  { omit_default_content_length := false, omit_default_content_type := false }

/-- Modelled from the spec: builder method setting the
omit-default-Content-Length flag. -/
def HeaderSerializationSettings.omit_default_content_length' (s : HeaderSerializationSettings) :
    HeaderSerializationSettings :=
  { s with omit_default_content_length := true }

/-- Modelled from the spec: builder method setting the
omit-default-Content-Type flag. -/
def HeaderSerializationSettings.omit_default_content_type' (s : HeaderSerializationSettings) :
    HeaderSerializationSettings :=
  { s with omit_default_content_type := true }

/-- Modelled from the spec: the in-flight request.  Both hooks receive the
context but never read or write it (`_context` in the source), so its
structure is abstract. -/
abbrev Request := Nat

/-- Modelled from the spec: the layered, type-indexed configuration store
(`aws_smithy_types::config_bag::ConfigBag`).  For each entry type the claims
touch there is a frozen-layers slot and an interceptor-state slot;
`get-latest` prefers the interceptor state, and `store_put` on the
interceptor state overwrites by type.  All entries of any other type are
abstracted into `other_entries`. -/
structure ConfigBag where
  frozen_sigv4 : Option SigV4OperationSigningConfig
  state_sigv4 : Option SigV4OperationSigningConfig
  frozen_header_settings : Option HeaderSerializationSettings
  state_header_settings : Option HeaderSerializationSettings
  other_entries : Nat
deriving DecidableEq, Repr

/-- Modelled from the spec: `cfg.load::<SigV4OperationSigningConfig>()` —
latest-write-wins lookup across the layers. -/
def ConfigBag.load_sigv4 (cfg : ConfigBag) : Option SigV4OperationSigningConfig :=
  cfg.state_sigv4 <|> cfg.frozen_sigv4

/-- Modelled from the spec: `cfg.load::<HeaderSerializationSettings>()`. -/
def ConfigBag.load_header_settings (cfg : ConfigBag) : Option HeaderSerializationSettings :=
  cfg.state_header_settings <|> cfg.frozen_header_settings

/-- Modelled from the spec:
`cfg.interceptor_state().store_put::<SigV4OperationSigningConfig>(v)`. -/
def ConfigBag.store_put_sigv4 (cfg : ConfigBag) (v : SigV4OperationSigningConfig) : ConfigBag :=
  { cfg with state_sigv4 := some v }

/-- Modelled from the spec:
`cfg.interceptor_state().store_put::<HeaderSerializationSettings>(v)`. -/
def ConfigBag.store_put_header_settings (cfg : ConfigBag) (v : HeaderSerializationSettings) :
    ConfigBag :=
  { cfg with state_header_settings := some v }

/-- The presigning interceptor: captures the presigning config and the
payload override at construction (`SigV4PresigningInterceptor`). -/
structure SigV4PresigningInterceptor where
  config : PresigningConfig
  payload_override : SignableBody
deriving DecidableEq, Repr

/-- `SigV4PresigningInterceptor::new`. -/
def SigV4PresigningInterceptor.new (config : PresigningConfig)
    (payload_override : SignableBody) : SigV4PresigningInterceptor :=
  { config := config, payload_override := payload_override }

/-- `SigV4PresigningInterceptor::modify_before_serialization`: overwrite the
`HeaderSerializationSettings` entry with one omitting both default headers;
always `Ok(())`.  The Rust hook mutates `cfg` in place and returns
`Result<(), BoxError>`; here it returns the result together with the
(unchanged) request and the updated bag. -/
def SigV4PresigningInterceptor.modify_before_serialization
    (_self : SigV4PresigningInterceptor) (ctx : Request) (cfg : ConfigBag) :
    Except String Unit × Request × ConfigBag :=
  (Except.ok (), ctx,
    cfg.store_put_header_settings
      (HeaderSerializationSettings.new.omit_default_content_length'.omit_default_content_type'))

/-- The error text returned by `modify_before_signing` when no
`SigV4OperationSigningConfig` is in the config bag. -/
def missingSigningConfigError : String :=
  "SigV4 presigning requires the SigV4OperationSigningConfig to be in the config bag. This is a bug. Please file an issue."

/-- `SigV4PresigningInterceptor::modify_before_signing`: clone the latest
`SigV4OperationSigningConfig`, set `expires_in`, `signature_type` and
`payload_override`, store it back; error when no entry exists. -/
def SigV4PresigningInterceptor.modify_before_signing
    (self : SigV4PresigningInterceptor) (ctx : Request) (cfg : ConfigBag) :
    Except String Unit × Request × ConfigBag :=
  match cfg.load_sigv4 with
  | some config =>
      let config' : SigV4OperationSigningConfig :=
        { config with signing_options :=
          { config.signing_options with
            expires_in := some self.config.expires
            signature_type := HttpSignatureType.HttpRequestQueryParams
            payload_override := some self.payload_override } }
      (Except.ok (), ctx, cfg.store_put_sigv4 config')
  | none => (Except.error missingSigningConfigError, ctx, cfg)

/-- Modelled from the spec: the closed set of extension points of the
`Interceptor` interface (the trait lives in `aws-smithy-runtime-api`, not
under `src/`); each has a no-op default. -/
inductive ExtensionPoint where
  | readBeforeExecution
  | modifyBeforeSerialization
  | readBeforeSerialization
  | readAfterSerialization
  | modifyBeforeRetryLoop
  | readBeforeAttempt
  | modifyBeforeSigning
  | readBeforeSigning
  | readAfterSigning
  | modifyBeforeTransmit
  | readBeforeTransmit
  | readAfterTransmit
  | modifyBeforeDeserialization
  | readBeforeDeserialization
  | readAfterDeserialization
  | modifyBeforeAttemptCompletion
  | readAfterAttempt
  | modifyBeforeCompletion
  | readAfterExecution
deriving DecidableEq, Repr

/-- Dispatch of the interceptor at an extension point: the impl overrides
only `modify_before_serialization` and `modify_before_signing`; every other
point keeps the trait's no-op default. -/
def SigV4PresigningInterceptor.invoke (self : SigV4PresigningInterceptor)
    (p : ExtensionPoint) (ctx : Request) (cfg : ConfigBag) :
    Except String Unit × Request × ConfigBag :=
  match p with
  | ExtensionPoint.modifyBeforeSerialization => self.modify_before_serialization ctx cfg
  | ExtensionPoint.modifyBeforeSigning => self.modify_before_signing ctx cfg
  | _ => (Except.ok (), ctx, cfg)

/-- Modelled from the spec: `StaticTimeSource` — a fixed clock pinned to a
point in time (`aws-smithy-async`, not under `src/`). -/
structure StaticTimeSource where
  time : Time
deriving DecidableEq, Repr

/-- Modelled from the spec: `StaticTimeSource::new`. -/
def StaticTimeSource.new (t : Time) : StaticTimeSource := { time := t }

/-- Modelled from the spec: querying the fixed clock ignores the real-world
instant at which the query is made and returns the pinned time. -/
def StaticTimeSource.now (ts : StaticTimeSource) (_realInstant : Time) : Time :=
  ts.time

/-- Modelled from the spec: what a retry strategy answers when consulted. -/
inductive ShouldAttempt where
  | Yes
  | No
  | YesAfterDelay (delay : Duration)
deriving DecidableEq, Repr

/-- Modelled from the spec: the outcome of an attempt, abstract (the retry
strategy never inspects it). -/
abbrev AttemptOutcome := Nat

/-- Modelled from the spec: `NeverRetryStrategy` — permits exactly one
attempt, never retries (`aws-smithy-runtime`, not under `src/`). -/
structure NeverRetryStrategy where
deriving DecidableEq, Repr

/-- Modelled from the spec: `NeverRetryStrategy::new`. -/
def NeverRetryStrategy.new : NeverRetryStrategy := {}

/-- Modelled from the spec: the never-retry strategy permits the initial
attempt. -/
def NeverRetryStrategy.should_attempt_initial_request (_s : NeverRetryStrategy) :
    ShouldAttempt :=
  ShouldAttempt.Yes

/-- Modelled from the spec: consulted after any attempt result, the
never-retry strategy never signals a retry. -/
def NeverRetryStrategy.should_attempt_retry (_s : NeverRetryStrategy)
    (_outcome : AttemptOutcome) : ShouldAttempt :=
  ShouldAttempt.No

/-- Modelled from the spec: type identity of a target interceptor for the
disabled-interceptor marker convention; the three ambient interceptors the
plugin disables, plus every other interceptor type. -/
inductive InterceptorType where
  | InvocationIdInterceptor
  | RequestInfoInterceptor
  | UserAgentInterceptor
  | otherInterceptor (n : Nat)
deriving DecidableEq, Repr

/-- Modelled from the spec: a configuration layer carrying
disabled-interceptor markers, typed entries keyed by target interceptor type
with `store_put` overwrite-by-type semantics (`aws_smithy_types::config_bag::Layer`,
restricted to the entry kinds the plugin's layer holds). -/
structure Layer where
  name : String
  disabled_markers : List (InterceptorType × String)
deriving DecidableEq, Repr

/-- Modelled from the spec: `Layer::new(name)` — empty layer. -/
def Layer.new (name : String) : Layer := { name := name, disabled_markers := [] }

/-- Modelled from the spec:
`layer.store_put(disable_interceptor::<T>(cause))` — typed put, overwriting
any existing marker for the same target type. -/
def Layer.store_put_disable (l : Layer) (t : InterceptorType) (cause : String) : Layer :=
  { l with disabled_markers :=
      (l.disabled_markers.filter (fun e => e.1 ≠ t)) ++ [(t, cause)] }

/-- Modelled from the spec: `layer.freeze()` — immutable snapshot (identity
on the value). -/
def Layer.freeze (l : Layer) : Layer := l

/-- The presigning runtime plugin: registers the interceptor, a never-retry
strategy and a static time source (`SigV4PresigningRuntimePlugin`). -/
structure SigV4PresigningRuntimePlugin where
  interceptor : SigV4PresigningInterceptor
  retry_strategy : NeverRetryStrategy
  time_source : StaticTimeSource
deriving DecidableEq, Repr

/-- `SigV4PresigningRuntimePlugin::new`: pins the time source to
`config.start_time()`, wraps the interceptor over `(config, payload_override)`
and a `NeverRetryStrategy`. -/
def SigV4PresigningRuntimePlugin.new (config : PresigningConfig)
    (payload_override : SignableBody) : SigV4PresigningRuntimePlugin :=
  { interceptor := SigV4PresigningInterceptor.new config payload_override
    retry_strategy := NeverRetryStrategy.new
    time_source := StaticTimeSource.new config.start_time }

/-- `SigV4PresigningRuntimePlugin::config` (the `RuntimePlugin` impl):
a frozen layer named "Presigning" with disabled-interceptor markers for the
invocation-id, request-info and user-agent interceptors, each with cause
"presigning". -/
def SigV4PresigningRuntimePlugin.config (_self : SigV4PresigningRuntimePlugin) :
    Option Layer :=
  some
    ((((Layer.new "Presigning").store_put_disable
        InterceptorType.InvocationIdInterceptor "presigning").store_put_disable
        InterceptorType.RequestInfoInterceptor "presigning").store_put_disable
        InterceptorType.UserAgentInterceptor "presigning").freeze

/-! Sample concrete inputs used by witnesses. -/

/-- A sample presigning configuration: `start_time = 100`, `expires = 300`. -/
def sampleConfig : PresigningConfig := { start_time := 100, expires := 300 }

/-- A sample interceptor capturing `sampleConfig` and the unsigned-payload
marker. -/
def sampleInterceptor : SigV4PresigningInterceptor :=
  SigV4PresigningInterceptor.new sampleConfig SignableBody.UnsignedPayload

/-- A sample pre-existing signing config: no expiry, header-based placement,
no payload override, distinguished other fields. -/
def samplePrior : SigV4OperationSigningConfig :=
  { signing_options :=
      { expires_in := none
        signature_type := HttpSignatureType.HttpRequestHeaders
        payload_override := none
        other_field := 7 }
    other_config_field := 9 }

/-- A sample config bag whose frozen layers hold `samplePrior`. -/
def sampleBag : ConfigBag :=
  { frozen_sigv4 := some samplePrior
    state_sigv4 := none
    frozen_header_settings := none
    state_header_settings := none
    other_entries := 5 }

/-- A sample config bag with no `SigV4OperationSigningConfig` entry. -/
def emptyBag : ConfigBag :=
  { frozen_sigv4 := none
    state_sigv4 := none
    frozen_header_settings := none
    state_header_settings := none
    other_entries := 5 }

/-! Claim theorems. -/

/-- C1: for every presigning configuration and payload override captured by
the interceptor, and every config bag already containing a
`SigV4OperationSigningConfig` entry, the before-signing hook succeeds and the
latest entry afterwards has query-parameter placement, expiry equal to
`expires`, and payload override equal to the captured one. -/
theorem before_signing_sets_presigning_fields
    (i : SigV4PresigningInterceptor) (ctx : Request) (cfg : ConfigBag)
    (prior : SigV4OperationSigningConfig) (h : cfg.load_sigv4 = some prior) :
    (i.modify_before_signing ctx cfg).1 = Except.ok () ∧
    ∃ c, ((i.modify_before_signing ctx cfg).2.2).load_sigv4 = some c ∧
      c.signing_options.signature_type = HttpSignatureType.HttpRequestQueryParams ∧
      c.signing_options.expires_in = some i.config.expires ∧
      c.signing_options.payload_override = some i.payload_override := by
  have h' : (cfg.state_sigv4 <|> cfg.frozen_sigv4) = some prior := h
  simp [SigV4PresigningInterceptor.modify_before_signing, h',
    ConfigBag.load_sigv4, ConfigBag.store_put_sigv4]

/-- C1 witness: the theorem applied at the sample interceptor and bag. -/
theorem before_signing_sets_presigning_fields_witness :
    sampleBag.load_sigv4 = some samplePrior ∧
    ((sampleInterceptor.modify_before_signing 0 sampleBag).1 = Except.ok () ∧
    ∃ c, ((sampleInterceptor.modify_before_signing 0 sampleBag).2.2).load_sigv4 = some c ∧
      c.signing_options.signature_type = HttpSignatureType.HttpRequestQueryParams ∧
      c.signing_options.expires_in = some sampleInterceptor.config.expires ∧
      c.signing_options.payload_override = some sampleInterceptor.payload_override) :=
  ⟨by decide,
    before_signing_sets_presigning_fields sampleInterceptor 0 sampleBag samplePrior (by decide)⟩

/-- C2: after the before-signing hook runs on a bag containing a
`SigV4OperationSigningConfig`, every field of the resulting entry other than
`expires_in`, `signature_type` and `payload_override` equals the
corresponding field of the pre-existing entry. -/
theorem before_signing_preserves_other_fields
    (i : SigV4PresigningInterceptor) (ctx : Request) (cfg : ConfigBag)
    (prior : SigV4OperationSigningConfig) (h : cfg.load_sigv4 = some prior) :
    ∃ c, ((i.modify_before_signing ctx cfg).2.2).load_sigv4 = some c ∧
      c.signing_options.other_field = prior.signing_options.other_field ∧
      c.other_config_field = prior.other_config_field := by
  have h' : (cfg.state_sigv4 <|> cfg.frozen_sigv4) = some prior := h
  simp [SigV4PresigningInterceptor.modify_before_signing, h',
    ConfigBag.load_sigv4, ConfigBag.store_put_sigv4]

/-- C2 witness: the theorem applied at the sample interceptor and bag. -/
theorem before_signing_preserves_other_fields_witness :
    sampleBag.load_sigv4 = some samplePrior ∧
    ∃ c, ((sampleInterceptor.modify_before_signing 0 sampleBag).2.2).load_sigv4 = some c ∧
      c.signing_options.other_field = samplePrior.signing_options.other_field ∧
      c.other_config_field = samplePrior.other_config_field :=
  ⟨by decide,
    before_signing_preserves_other_fields sampleInterceptor 0 sampleBag samplePrior (by decide)⟩

/-- C3: from every prior config-bag state, the before-serialization hook
succeeds and leaves the latest `HeaderSerializationSettings` entry with both
omit-default flags set. -/
theorem before_serialization_omits_default_headers
    (i : SigV4PresigningInterceptor) (ctx : Request) (cfg : ConfigBag) :
    (i.modify_before_serialization ctx cfg).1 = Except.ok () ∧
    ((i.modify_before_serialization ctx cfg).2.2).load_header_settings =
      some { omit_default_content_length := true, omit_default_content_type := true } := by
  simp [SigV4PresigningInterceptor.modify_before_serialization,
    ConfigBag.load_header_settings, ConfigBag.store_put_header_settings,
    HeaderSerializationSettings.new, HeaderSerializationSettings.omit_default_content_length',
    HeaderSerializationSettings.omit_default_content_type']

/-- C4: the before-signing hook errors exactly when the bag has no
`SigV4OperationSigningConfig` entry; in that case it returns the
missing-prerequisite error with the bag and request untouched; and across all
extension points this is the only error the interceptor produces. -/
theorem before_signing_error_iff_missing_config
    (i : SigV4PresigningInterceptor) (ctx : Request) (cfg : ConfigBag) :
    ((∃ e, (i.modify_before_signing ctx cfg).1 = Except.error e) ↔ cfg.load_sigv4 = none) ∧
    (cfg.load_sigv4 = none →
      i.modify_before_signing ctx cfg = (Except.error missingSigningConfigError, ctx, cfg)) ∧
    (∀ p e, (i.invoke p ctx cfg).1 = Except.error e →
      p = ExtensionPoint.modifyBeforeSigning ∧ cfg.load_sigv4 = none ∧
      e = missingSigningConfigError) := by
  refine ⟨?_, ?_, ?_⟩
  · cases hc : cfg.load_sigv4 <;>
      simp [SigV4PresigningInterceptor.modify_before_signing, hc]
  · intro hn
    simp [SigV4PresigningInterceptor.modify_before_signing, hn]
  · intro p e he
    cases p <;>
      simp_all only [SigV4PresigningInterceptor.invoke,
        SigV4PresigningInterceptor.modify_before_serialization] <;>
      cases hc : cfg.load_sigv4 <;>
      simp_all [SigV4PresigningInterceptor.modify_before_signing, hc]

/-- C4 witness: the theorem applied at the sample interceptor and the bag
with no signing config. -/
theorem before_signing_error_iff_missing_config_witness :
    emptyBag.load_sigv4 = none ∧
    sampleInterceptor.modify_before_signing 0 emptyBag =
      (Except.error missingSigningConfigError, 0, emptyBag) :=
  ⟨by decide,
    (before_signing_error_iff_missing_config sampleInterceptor 0 emptyBag).2.1 (by decide)⟩

/-- C5: for every plugin built by `new`, the configuration layer holds
exactly three disabled-interceptor markers — invocation-id, request-info,
user-agent — each with reason "presigning", and a marker for no other
interceptor type. -/
theorem plugin_config_disables_exactly_three
    (config : PresigningConfig) (payload_override : SignableBody) :
    ∃ l, (SigV4PresigningRuntimePlugin.new config payload_override).config = some l ∧
      l.disabled_markers =
        [(InterceptorType.InvocationIdInterceptor, "presigning"),
         (InterceptorType.RequestInfoInterceptor, "presigning"),
         (InterceptorType.UserAgentInterceptor, "presigning")] ∧
      ∀ t c, (t, c) ∈ l.disabled_markers ↔
        (c = "presigning" ∧
          (t = InterceptorType.InvocationIdInterceptor ∨
           t = InterceptorType.RequestInfoInterceptor ∨
           t = InterceptorType.UserAgentInterceptor)) := by
  refine ⟨{ name := "Presigning", disabled_markers :=
    [(InterceptorType.InvocationIdInterceptor, "presigning"),
     (InterceptorType.RequestInfoInterceptor, "presigning"),
     (InterceptorType.UserAgentInterceptor, "presigning")] }, by rfl, rfl, ?_⟩
  intro t c
  simp only [List.mem_cons, List.not_mem_nil, or_false, Prod.mk.injEq]
  constructor
  · rintro (⟨rfl, rfl⟩ | ⟨rfl, rfl⟩ | ⟨rfl, rfl⟩) <;> simp
  · rintro ⟨rfl, rfl | rfl | rfl⟩ <;> simp

/-- C6: the time-source component registered by the plugin returns exactly
`start_time` on every query, at any two real-world instants. -/
theorem plugin_time_source_pinned
    (config : PresigningConfig) (payload_override : SignableBody) (t1 t2 : Time) :
    (SigV4PresigningRuntimePlugin.new config payload_override).time_source.now t1 =
      config.start_time ∧
    (SigV4PresigningRuntimePlugin.new config payload_override).time_source.now t2 =
      config.start_time :=
  ⟨rfl, rfl⟩

/-- C7: the retry-strategy component registered by the plugin permits the
initial attempt and, consulted after any attempt outcome, never signals a
retry. -/
theorem plugin_retry_strategy_never_retries
    (config : PresigningConfig) (payload_override : SignableBody)
    (outcome : AttemptOutcome) :
    (SigV4PresigningRuntimePlugin.new config
        payload_override).retry_strategy.should_attempt_retry outcome = ShouldAttempt.No ∧
    (SigV4PresigningRuntimePlugin.new config
        payload_override).retry_strategy.should_attempt_initial_request = ShouldAttempt.Yes :=
  ⟨rfl, rfl⟩

/-- C8: at every extension point other than before-serialization and
before-signing, invoking the interceptor succeeds and leaves the request and
the config bag unchanged. -/
theorem other_extension_points_are_noops
    (i : SigV4PresigningInterceptor) (p : ExtensionPoint) (ctx : Request) (cfg : ConfigBag)
    (h1 : p ≠ ExtensionPoint.modifyBeforeSerialization)
    (h2 : p ≠ ExtensionPoint.modifyBeforeSigning) :
    i.invoke p ctx cfg = (Except.ok (), ctx, cfg) := by
  cases p <;> first
    | rfl
    | exact absurd rfl h1
    | exact absurd rfl h2

/-- C8 witness: the theorem applied at the read-before-execution point. -/
theorem other_extension_points_are_noops_witness :
    ExtensionPoint.readBeforeExecution ≠ ExtensionPoint.modifyBeforeSerialization ∧
    ExtensionPoint.readBeforeExecution ≠ ExtensionPoint.modifyBeforeSigning ∧
    sampleInterceptor.invoke ExtensionPoint.readBeforeExecution 0 sampleBag =
      (Except.ok (), 0, sampleBag) :=
  ⟨by decide, by decide,
    other_extension_points_are_noops sampleInterceptor ExtensionPoint.readBeforeExecution 0
      sampleBag (by decide) (by decide)⟩

/-- C9: both hooks are idempotent on the config bag — for every config-bag
state, running before-serialization twice equals running it once, and, for
every bag containing a `SigV4OperationSigningConfig` entry, running
before-signing twice equals running it once. -/
theorem hooks_idempotent
    (i : SigV4PresigningInterceptor) (ctx : Request) (cfg : ConfigBag) :
    (i.modify_before_serialization ctx
        ((i.modify_before_serialization ctx cfg).2.2)).2.2 =
      (i.modify_before_serialization ctx cfg).2.2 ∧
    (∀ prior, cfg.load_sigv4 = some prior →
      (i.modify_before_signing ctx ((i.modify_before_signing ctx cfg).2.2)).2.2 =
        (i.modify_before_signing ctx cfg).2.2) := by
  constructor
  · rfl
  · intro prior h
    have h' : (cfg.state_sigv4 <|> cfg.frozen_sigv4) = some prior := h
    simp [SigV4PresigningInterceptor.modify_before_signing, h',
      ConfigBag.load_sigv4, ConfigBag.store_put_sigv4]

/-- C9 witness: the theorem applied at the sample interceptor and bag,
discharging the before-signing precondition at `samplePrior`. -/
theorem hooks_idempotent_witness :
    sampleBag.load_sigv4 = some samplePrior ∧
    (sampleInterceptor.modify_before_signing 0
        ((sampleInterceptor.modify_before_signing 0 sampleBag).2.2)).2.2 =
      (sampleInterceptor.modify_before_signing 0 sampleBag).2.2 :=
  ⟨by decide,
    (hooks_idempotent sampleInterceptor 0 sampleBag).2 samplePrior (by decide)⟩

/-- C10: the before-serialization hook writes only the
`HeaderSerializationSettings` interceptor-state entry — the request and every
other part of the config bag are returned unchanged, with success. -/
theorem before_serialization_writes_only_header_settings
    (i : SigV4PresigningInterceptor) (ctx : Request) (cfg : ConfigBag) :
    i.modify_before_serialization ctx cfg =
      (Except.ok (), ctx,
        { cfg with state_header_settings := some (HeaderSerializationSettings.mk true true) }) :=
  rfl
